import Mathlib

/-!
Verification of the browser-side check-in kiosk modules of the
qr_checkin_system repository: the WebSocket reconnection manager, the
generic API request handler, the check-in API, the QR identifier
extraction, and the camera/scan pipeline state logic. Each JavaScript
function relevant to the verified properties is shallowly embedded as an
executable Lean definition; platform builtins (JSON.parse, JSON.stringify,
String.prototype.split, String.prototype.trim) are modelled by faithful
Lean implementations of their documented semantics.
-/

/- ===================== WebSocket connection manager =====================
   Embedding of the WebSocketManager class in the WebSocket API module.
   The handler registries (message handlers, connection handlers) are
   callback tables that do not influence the state transitions verified
   here, so the state carries only the socket handle and the reconnect
   counter; the constructor sets websocket = null and reconnectAttempts
   = 0, with maxReconnectAttempts = 5 and reconnectDelay = 5000 fixed. -/

/-- JavaScript WebSocket ready-state constants: CONNECTING = 0, OPEN = 1,
CLOSING = 2, CLOSED = 3. A socket is modelled by its readyState. -/
structure WSocket where
  readyState : Nat
deriving DecidableEq

def wsCONNECTING : Nat := 0

def wsOPEN : Nat := 1

def wsCLOSED : Nat := 3

/-- State of a WebSocketManager instance: the socket handle (null modelled
as none) and the current reconnect attempt counter. -/
structure WSManager where
  websocket : Option WSocket
  reconnectAttempts : Nat
deriving DecidableEq

/-- Fixed manager constants from the constructor. -/
def maxReconnectAttempts : Nat := 5

def reconnectDelay : Nat := 5000

/-- Manager state as built by the constructor. -/
def newWSManager : WSManager := ⟨none, 0⟩

/-- Embedding of the onclose handler of WebSocketManager.connect: after
invoking the user onClose callback, if the close code is not 1000 and the
reconnect counter is below maxReconnectAttempts, the counter is
incremented and a reconnect is scheduled via setTimeout with delay
reconnectDelay; the returned option carries (delay, attempt number) of
the scheduled reconnect, none when nothing is scheduled. -/
def handleClose (m : WSManager) (code : Nat) : WSManager × Option (Nat × Nat) :=
  if code ≠ 1000 ∧ m.reconnectAttempts < maxReconnectAttempts then
    (⟨m.websocket, m.reconnectAttempts + 1⟩, some (reconnectDelay, m.reconnectAttempts + 1))
  else
    (m, none)

/-- Embedding of WebSocketManager.disconnect(code, reason): when a socket
is present it is closed with the given code and reason and the handle is
nulled; the reconnect counter is always reset to 0. The second component
lists the close calls issued to the underlying socket. -/
def disconnect (m : WSManager) (code : Nat) (reason : String) :
    WSManager × List (Nat × String) :=
  match m.websocket with
  | some _ => (⟨none, 0⟩, [(code, reason)])
  | none => (⟨m.websocket, 0⟩, [])

/-- Embedding of the state effect of WebSocketManager.connect: after
storing the handler registries it calls this.disconnect(), which nulls
the handle and resets the reconnect counter to 0, and then installs a
fresh socket in the CONNECTING ready state. The counter after every
connect call is therefore the one disconnect leaves behind: 0. -/
def connectInvoke (m : WSManager) : WSManager :=
  let afterDisconnect := (disconnect m 1000 "Manual disconnect").1
  ⟨some ⟨wsCONNECTING⟩, afterDisconnect.reconnectAttempts⟩

/-- One close event on the manager: the underlying socket passes to the
CLOSED ready state and the onclose handler runs. Returns the new manager
state and the scheduled reconnect, if any. -/
def closeEvent (m : WSManager) (code : Nat) : WSManager × Option (Nat × Nat) :=
  handleClose ⟨some ⟨wsCLOSED⟩, m.reconnectAttempts⟩ code

/-- The setTimeout body scheduled by the onclose handler: when the
socket handle is gone or the socket is CLOSED, onReconnect is invoked
with the current attempt counter and connect is re-invoked (resetting
the counter via disconnect); otherwise nothing happens. -/
def reconnectTimeout (m : WSManager) : WSManager :=
  match m.websocket with
  | none => connectInvoke m
  | some ws => if ws.readyState = wsCLOSED then connectInvoke m else m

/-- Manager state just before the (n+1)-st close event in a run where
every connection attempt fails with the given close code: the initial
connect, then after each close whose onclose handler scheduled a
reconnect, the timeout fires with the socket CLOSED and the full connect
cycle runs again. -/
def persistentFailure (code : Nat) : Nat → WSManager
  | 0 => connectInvoke newWSManager
  | n + 1 =>
      let step := closeEvent (persistentFailure code n) code
      match step.2 with
      | some _ => reconnectTimeout step.1
      | none => step.1

/-- Result of WebSocketManager.send: either the serialized payload is
transmitted on the socket, or the message is logged and dropped. The
function is total: no branch throws. -/
inductive SendResult where
  | transmitted (payload : String)
  | dropped
deriving DecidableEq

/- ===================== JSON model =====================
   JavaScript JSON values as produced by JSON.parse. Numbers are kept as
   their source lexeme (a string matching the JSON number grammar), which
   preserves parse success/failure exactly and supports the truthiness
   test without committing to floating-point semantics. -/

inductive JsValue where
  | null
  | bool (b : Bool)
  | num (lexeme : String)
  | str (s : String)
  | arr (elems : List JsValue)
  | obj (fields : List (String × JsValue))

/-- A JSON number lexeme denotes zero iff every digit of its mantissa
(the part before any exponent marker) is 0. -/
def numIsZero (lexeme : String) : Bool :=
  (lexeme.data.takeWhile (fun c => c ≠ 'e' ∧ c ≠ 'E')).all
    (fun c => !c.isDigit || c = '0')

/-- JavaScript truthiness of a value, with none standing for undefined:
undefined, null, false, ±0 and the empty string are falsy; every other
value, including any object or array, is truthy. -/
def truthy : Option JsValue → Bool
  | none => false
  | some .null => false
  | some (.bool b) => b
  | some (.num lexeme) => !numIsZero lexeme
  | some (.str s) => s ≠ ""
  | some (.arr _) => true
  | some (.obj _) => true

/-- JavaScript logical-or on values: returns the left operand when it is
truthy, the right operand otherwise. -/
def jsOr (a b : Option JsValue) : Option JsValue :=
  if truthy a then a else b

/-- Property access obj.k as used on a JSON.parse result: on an object,
the value of the last binding of the key (JavaScript keeps the last
duplicate); on any non-null primitive, array or mismatching object,
undefined. Access on null throws and is handled at each call site. -/
def getField : JsValue → String → Option JsValue
  | .obj fields, k => (fields.reverse.find? (fun p => p.1 == k)).map (fun p => p.2)
  | _, _ => none

/-- Lower-case hexadecimal digit for a value below 16. -/
def hexDigit (n : Nat) : Char :=
  if n < 10 then Char.ofNat ('0'.toNat + n) else Char.ofNat ('a'.toNat + (n - 10))

/-- JSON string escaping as performed by JSON.stringify: quote, backslash
and control characters are escaped, everything else is copied. -/
def escapeJsonChar (c : Char) : String :=
  if c = '"' then "\\\""
  else if c = '\\' then "\\\\"
  else if c = Char.ofNat 8 then "\\b"
  else if c = Char.ofNat 9 then "\\t"
  else if c = Char.ofNat 10 then "\\n"
  else if c = Char.ofNat 12 then "\\f"
  else if c = Char.ofNat 13 then "\\r"
  else if c.toNat < 32 then
    String.mk ['\\', 'u', '0', '0', hexDigit (c.toNat / 16), hexDigit (c.toNat % 16)]
  else String.mk [c]

def quoteJsonString (s : String) : String :=
  "\"" ++ String.join (s.data.map escapeJsonChar) ++ "\""

mutual

/-- JSON.stringify on a JSON value (no replacer, no indentation). -/
def jsonStringify : JsValue → String
  | .null => "null"
  | .bool b => if b then "true" else "false"
  | .num lexeme => lexeme
  | .str s => quoteJsonString s
  | .arr elems => "[" ++ stringifyElems elems ++ "]"
  | .obj fields => "\x7b" ++ stringifyFields fields ++ "\x7d"

def stringifyElems : List JsValue → String
  | [] => ""
  | [v] => jsonStringify v
  | v :: vs => jsonStringify v ++ "," ++ stringifyElems vs

def stringifyFields : List (String × JsValue) → String
  | [] => ""
  | [(k, v)] => quoteJsonString k ++ ":" ++ jsonStringify v
  | (k, v) :: fs => quoteJsonString k ++ ":" ++ jsonStringify v ++ "," ++ stringifyFields fs

end

/- ===================== JSON.parse model =====================
   Recursive-descent parser for the JSON grammar accepted by JavaScript
   JSON.parse: optional whitespace (space, tab, newline, carriage return)
   around tokens, values are objects, arrays, strings with the standard
   escapes, numbers per the JSON number grammar, and the literals true,
   false, null. The mutual recursion is bounded by a fuel parameter that
   the top-level entry point sets large enough for any input. -/

def isJsonWs (c : Char) : Bool :=
  c = ' ' || c = '\t' || c = '\n' || c = '\r'

def skipWs : List Char → List Char
  | [] => []
  | c :: rest => if isJsonWs c then skipWs rest else c :: rest

def hexVal (c : Char) : Option Nat :=
  if '0' ≤ c ∧ c ≤ '9' then some (c.toNat - '0'.toNat)
  else if 'a' ≤ c ∧ c ≤ 'f' then some (c.toNat - 'a'.toNat + 10)
  else if 'A' ≤ c ∧ c ≤ 'F' then some (c.toNat - 'A'.toNat + 10)
  else none

/-- Parse the body of a JSON string after the opening quote; returns the
decoded characters and the input remaining after the closing quote. -/
def parseStringChars : List Char → Option (List Char × List Char)
  | [] => none
  | '"' :: rest => some ([], rest)
  | '\\' :: 'u' :: h1 :: h2 :: h3 :: h4 :: rest => do
      let a ← hexVal h1
      let b ← hexVal h2
      let c ← hexVal h3
      let d ← hexVal h4
      let (cs, r) ← parseStringChars rest
      some (Char.ofNat (((a * 16 + b) * 16 + c) * 16 + d) :: cs, r)
  | '\\' :: e :: rest => do
      let c ←
        (if e = '"' then some '"'
         else if e = '\\' then some '\\'
         else if e = '/' then some '/'
         else if e = 'b' then some (Char.ofNat 8)
         else if e = 'f' then some (Char.ofNat 12)
         else if e = 'n' then some (Char.ofNat 10)
         else if e = 'r' then some (Char.ofNat 13)
         else if e = 't' then some (Char.ofNat 9)
         else none)
      let (cs, r) ← parseStringChars rest
      some (c :: cs, r)
  | c :: rest =>
      if c.toNat < 32 then none
      else do
        let (cs, r) ← parseStringChars rest
        some (c :: cs, r)

def digitSpan (cs : List Char) : List Char × List Char :=
  (cs.takeWhile Char.isDigit, cs.dropWhile Char.isDigit)

/-- JSON integer part: a single 0, or a nonzero digit followed by digits. -/
def parseIntPart : List Char → Option (List Char × List Char)
  | '0' :: rest => some (['0'], rest)
  | c :: rest =>
      if c.isDigit then
        let (ds, rest2) := digitSpan rest
        some (c :: ds, rest2)
      else none
  | [] => none

/-- JSON fraction part: a dot followed by at least one digit, or nothing. -/
def parseFrac (cs : List Char) : Option (List Char × List Char) :=
  match cs with
  | '.' :: rest =>
      let (ds, rest2) := digitSpan rest
      if ds.isEmpty then none else some ('.' :: ds, rest2)
  | _ => some ([], cs)

/-- JSON exponent part: e or E, an optional sign, at least one digit, or
nothing. -/
def parseExp (cs : List Char) : Option (List Char × List Char) :=
  match cs with
  | e :: rest =>
      if e = 'e' ∨ e = 'E' then
        let (sgn, rest1) :=
          match rest with
          | '+' :: r => (['+'], r)
          | '-' :: r => (['-'], r)
          | _ => (([] : List Char), rest)
        let (ds, rest2) := digitSpan rest1
        if ds.isEmpty then none else some (e :: (sgn ++ ds), rest2)
      else some ([], cs)
  | [] => some ([], [])

/-- JSON number: optional minus, integer part, optional fraction and
exponent. Returns the consumed lexeme and the remaining input. -/
def parseNumber (cs : List Char) : Option (List Char × List Char) := do
  let (sign, cs1) :=
    match cs with
    | '-' :: rest => ((['-'] : List Char), rest)
    | _ => ([], cs)
  let (intPart, cs2) ← parseIntPart cs1
  let (fracPart, cs3) ← parseFrac cs2
  let (expPart, cs4) ← parseExp cs3
  some (sign ++ intPart ++ fracPart ++ expPart, cs4)

mutual

/-- Parse one JSON value after skipping leading whitespace. -/
def parseValue : Nat → List Char → Option (JsValue × List Char)
  | 0, _ => none
  | fuel + 1, cs =>
    match skipWs cs with
    | '"' :: rest =>
        (parseStringChars rest).map (fun (content, r) => (.str (String.mk content), r))
    | '\x7b' :: rest =>
        (match skipWs rest with
         | '\x7d' :: r => some (.obj [], r)
         | _ => parseMembers fuel [] rest)
    | '[' :: rest =>
        (match skipWs rest with
         | ']' :: r => some (.arr [], r)
         | _ => parseElements fuel [] rest)
    | 't' :: 'r' :: 'u' :: 'e' :: rest => some (.bool true, rest)
    | 'f' :: 'a' :: 'l' :: 's' :: 'e' :: rest => some (.bool false, rest)
    | 'n' :: 'u' :: 'l' :: 'l' :: rest => some (.null, rest)
    | other => (parseNumber other).map (fun (lex, r) => (.num (String.mk lex), r))

/-- Parse the members of a non-empty JSON object, accumulating parsed
key-value pairs in order. -/
def parseMembers : Nat → List (String × JsValue) → List Char → Option (JsValue × List Char)
  | 0, _, _ => none
  | fuel + 1, acc, cs =>
    match skipWs cs with
    | '"' :: rest => do
        let (key, r1) ← parseStringChars rest
        match skipWs r1 with
        | ':' :: r2 => do
            let (v, r3) ← parseValue fuel r2
            let acc2 := acc ++ [(String.mk key, v)]
            (match skipWs r3 with
             | ',' :: r4 => parseMembers fuel acc2 r4
             | '\x7d' :: r4 => some (.obj acc2, r4)
             | _ => none)
        | _ => none
    | _ => none

/-- Parse the elements of a non-empty JSON array, accumulating parsed
values in order. -/
def parseElements : Nat → List JsValue → List Char → Option (JsValue × List Char)
  | 0, _, _ => none
  | fuel + 1, acc, cs => do
      let (v, r1) ← parseValue fuel cs
      match skipWs r1 with
      | ',' :: r2 => parseElements fuel (acc ++ [v]) r2
      | ']' :: r2 => some (.arr (acc ++ [v]), r2)
      | _ => none

end

/-- JSON.parse: parse one value and require only whitespace to remain.
The fuel bound 2 * length + 4 exceeds the recursion depth reachable on
the input, so it never causes a spurious failure. -/
def jsonParse (s : String) : Option JsValue :=
  match parseValue (2 * s.length + 4) s.data with
  | some (v, rest) => if skipWs rest = [] then some v else none
  | none => none

/-- Embedding of WebSocketManager.send(message): transmit the serialized
message only when a socket exists and its readyState is OPEN; otherwise
log a warning and drop the message. Totality of this definition reflects
that neither branch throws. -/
def send (m : WSManager) (message : JsValue) : SendResult :=
  match m.websocket with
  | some ws =>
      if ws.readyState = wsOPEN then .transmitted (jsonStringify message)
      else .dropped
  | none => .dropped

/- ===================== QR identifier extraction =====================
   Embedding of extractUserIdFromQR in the scanner utilities module. -/

/-- Whitespace removed by JavaScript String.prototype.trim: the ASCII
blank characters, the line terminators, and the Unicode space characters
U+00A0, U+1680, U+2000-200A, U+2028, U+2029, U+202F, U+205F, U+3000 and
U+FEFF. -/
def isJsWhitespace (c : Char) : Bool :=
  c = ' ' || c = '\t' || c = '\n' || c = '\r' || c = Char.ofNat 11 ||
    c = Char.ofNat 12 || c = Char.ofNat 0xa0 || c = Char.ofNat 0x1680 ||
    (0x2000 ≤ c.toNat && c.toNat ≤ 0x200a) || c = Char.ofNat 0x2028 ||
    c = Char.ofNat 0x2029 || c = Char.ofNat 0x202f || c = Char.ofNat 0x205f ||
    c = Char.ofNat 0x3000 || c = Char.ofNat 0xfeff

/-- JavaScript String.prototype.trim. -/
def jsTrim (s : String) : String :=
  String.mk (((s.data.dropWhile isJsWhitespace).reverse.dropWhile isJsWhitespace).reverse)

/-- Embedding of extractUserIdFromQR(qrData): the payload is passed to
JSON.parse inside a try block; on parse success the result of the
expression parsed.user_id, or parsed.id, or parsed.such-id-field chain is
returned, and on parse failure the catch branch returns the trimmed raw
text. When the payload parses to the JSON literal null, the property
access on null throws a TypeError that the same catch swallows, so the
trimmed raw text is returned in that case as well. The returned value is
a JavaScript value (none standing for undefined). -/
def extractUserIdFromQR (qrData : String) : Option JsValue :=
  match jsonParse qrData with
  | none => some (.str (jsTrim qrData))
  | some .null => some (.str (jsTrim qrData))
  | some parsed =>
      jsOr (jsOr (getField parsed "user_id") (getField parsed "id"))
        (getField parsed "_id")

/- ===================== Check-in API module =====================
   Embedding of apiRequest and checkinUser in the check-in API module. -/

/-- JavaScript String.prototype.split with a single-character separator:
the list of maximal separator-free segments, one more segment than there
are separators, never empty. -/
def splitOnChar (sep : Char) : List Char → List (List Char)
  | [] => [[]]
  | c :: rest =>
      if c = sep then [] :: splitOnChar sep rest
      else
        match splitOnChar sep rest with
        | g :: gs => (c :: g) :: gs
        | [] => [[c]]

/-- JavaScript falsiness of the userId argument: null or undefined
(modelled as none) and the empty string are falsy. -/
def jsFalsyStr : Option String → Bool
  | none => true
  | some s => s = ""

/-- The fetch request that checkinUser hands to apiRequest. -/
structure CheckinRequest where
  endpoint : String
  method : String
  body_user_id : String
deriving DecidableEq

/-- Embedding of checkinUser(userId): throw INVALID_USER_ID when the
argument is falsy; otherwise split on colons, keep the last segment, and
issue a POST to the check-in endpoint whose body carries that segment as
user_id. The error constructor models the throw, which happens before
any network activity. -/
def checkinUser (userId : Option String) : Except String CheckinRequest :=
  if jsFalsyStr userId then .error "INVALID_USER_ID"
  else
    let s := userId.getD ""
    let parts := splitOnChar ':' s.data
    .ok ⟨"/api/checkin/checkin", "POST", String.mk (parts.getLastD [])⟩

/-- An HTTP response as observed through fetch: a status code and the
outcome of parsing the body as JSON. -/
structure HttpResponse where
  status : Nat
  body : Option JsValue

/-- The fetch Response.ok flag: status in the range 200-299. -/
def HttpResponse.ok (r : HttpResponse) : Bool :=
  200 ≤ r.status && r.status < 300

/-- Outcome of one apiRequest call. authRequired is thrown before fetch
runs. For a non-2xx, non-401 status the handler first tries to throw the
message field of the parsed error body, but that throw is raised inside
the same try block as the body parse and is caught by the parse-error
catch, so the generic status message is thrown in every such case. -/
inductive ApiOutcome where
  | authRequired
  | sessionExpired
  | httpError (status : Nat)
  | bodyParseError
  | success (v : JsValue)

/-- Embedding of apiRequest(endpoint, options) in the check-in API
module: read the secretKey cookie, throw AUTH_REQUIRED when it is falsy
before fetch is invoked, otherwise classify the response. The Bool
records whether the network call was performed. -/
def apiRequest (secretKey : Option String) (resp : HttpResponse) :
    Bool × ApiOutcome :=
  if jsFalsyStr secretKey then (false, .authRequired)
  else
    (true,
      if !resp.ok then
        if resp.status = 401 then .sessionExpired
        else .httpError resp.status
      else
        match resp.body with
        | some v => .success v
        | none => .bodyParseError)

/- ===================== Camera permission pipeline =====================
   Embedding of checkAndRequestCameraPermission, requestCameraPermission
   and showCameraPermissionError in the scanner utilities module. -/

/-- Result of navigator.permissions.query for the camera descriptor. -/
inductive PermissionState where
  | granted
  | denied
  | prompt
  | other
deriving DecidableEq

/-- Browser environment visible to the permission check: whether the
Permissions API exists, what a query returns (none when the query
throws), and how a getUserMedia probe would end (none for success, some
errName for a rejection with that error name). -/
structure PermEnv where
  permissionsApi : Bool
  queryResult : Option PermissionState
  getUserMediaError : Option String

/-- Trace of one permission-check run: the returned boolean, whether
getUserMedia was invoked, and the error type passed to
showCameraPermissionError if it was called. -/
structure PermTrace where
  granted : Bool
  calledGetUserMedia : Bool
  shownError : Option String
deriving DecidableEq

/-- Embedding of requestCameraPermission: probe getUserMedia; on success
stop the probe stream and report granted; on failure classify the error
name into the error type shown to the user. -/
def requestCameraPermission (env : PermEnv) : PermTrace :=
  match env.getUserMediaError with
  | none => ⟨true, true, none⟩
  | some errName =>
      ⟨false, true,
        some (if errName = "NotAllowedError" then "denied"
              else if errName = "NotFoundError" then "no-camera"
              else if errName = "NotSupportedError" then "not-supported"
              else "unknown")⟩

/-- Embedding of checkAndRequestCameraPermission: when the Permissions
API exists, branch on the queried state — granted returns true at once,
denied shows the denied error and returns false without touching
getUserMedia, prompt and any other state fall through to
requestCameraPermission; a throwing query and a missing Permissions API
also fall through to requestCameraPermission. -/
def checkAndRequestCameraPermission (env : PermEnv) : PermTrace :=
  if env.permissionsApi then
    match env.queryResult with
    | some .granted => ⟨true, false, none⟩
    | some .denied => ⟨false, false, some "denied"⟩
    | some .prompt => requestCameraPermission env
    | some .other => requestCameraPermission env
    | none => requestCameraPermission env
  else requestCameraPermission env

/-- Embedding of showCameraPermissionError(type): the dialog title and
whether the request-permission button row is made visible. -/
def showCameraPermissionError (errType : String) : String × Bool :=
  if errType = "denied" then ("Camera Access Denied", true)
  else if errType = "no-camera" then ("No Camera Found", false)
  else if errType = "not-supported" then ("Camera Not Supported", false)
  else ("Camera Error", true)

/- ===================== Scan loop =====================
   Embedding of startScanning, stopScanning, scanForQRCode and the error
   modal hidden handler in the scanner utilities module. -/

/-- Scanner page state touched by the scan loop: the scanning flag, the
camera stream handle (none when stopped) and the pending animation frame
callback id (none when no sample is scheduled). -/
structure ScanState where
  isScanning : Bool
  cameraStream : Option Nat
  animationFrame : Option Nat
deriving DecidableEq

/-- One video frame as seen by a sample step: the native video
dimensions and the decode result jsQR would produce on it. -/
structure VideoFrame where
  videoWidth : Nat
  videoHeight : Nat
  qrPayload : Option String
deriving DecidableEq

/-- Trace of one scanForQRCode step: the updated state, whether the frame
was drawn to the canvas, whether a decode pass ran, whether a further
sample was scheduled, and the payload handed to handleQRCodeDetected. -/
structure ScanStepTrace where
  state : ScanState
  drew : Bool
  decoded : Bool
  scheduled : Bool
  detectedPayload : Option String
deriving DecidableEq

/-- Embedding of scanForQRCode: return immediately when the scanning
flag is off or the stream is gone; otherwise, when the video has nonzero
dimensions, draw the frame and run jsQR, handing a decoded payload to
handleQRCodeDetected without rescheduling; in every other case schedule
the next sample via requestAnimationFrame. -/
def scanForQRCode (s : ScanState) (frame : VideoFrame) (newFrameId : Nat) :
    ScanStepTrace :=
  if !s.isScanning || s.cameraStream = none then
    ⟨s, false, false, false, none⟩
  else if frame.videoWidth > 0 ∧ frame.videoHeight > 0 then
    match frame.qrPayload with
    | some payload => ⟨s, true, true, false, some payload⟩
    | none =>
        ⟨⟨s.isScanning, s.cameraStream, some newFrameId⟩, true, true, true, none⟩
  else
    ⟨⟨s.isScanning, s.cameraStream, some newFrameId⟩, false, false, true, none⟩

/-- Embedding of stopScanning: clear the scanning flag and cancel any
pending animation frame; the Bool records whether a pending frame
callback was cancelled. -/
def stopScanning (s : ScanState) : ScanState × Bool :=
  match s.animationFrame with
  | some _ => (⟨false, s.cameraStream, none⟩, true)
  | none => (⟨false, s.cameraStream, none⟩, false)

/-- Embedding of startScanning: a no-op without a stream or when already
scanning; otherwise set the scanning flag (the function then enters the
sample loop by invoking scanForQRCode). -/
def startScanning (s : ScanState) : ScanState :=
  if s.cameraStream = none || s.isScanning then s
  else ⟨true, s.cameraStream, s.animationFrame⟩

/-- Embedding of the errorModal hidden.bs.modal listener registered in
initializeEventListeners: dismissal of the error dialog performs no
immediate state change and schedules a timeout whose delay is returned
(500 ms); the timeout body is errorModalResumeCallback. -/
def errorModalHiddenHandler (s : ScanState) : ScanState × Nat :=
  (s, 500)

/-- Body of the timeout scheduled by the errorModal hidden listener:
resume scanning only when the stream is still active and scanning is not
already running. -/
def errorModalResumeCallback (s : ScanState) : ScanState :=
  if s.cameraStream ≠ none ∧ !s.isScanning then startScanning s else s



/- ===================== Helper lemmas ===================== -/

theorem splitOnChar_ne_nil (sep : Char) (cs : List Char) :
    splitOnChar sep cs ≠ [] := by
  induction cs with
  | nil => simp [splitOnChar]
  | cons c rest ih =>
      by_cases hc : c = sep
      · simp [splitOnChar, hc]
      · simp only [splitOnChar, hc, if_neg, ite_false]
        cases hsplit : splitOnChar sep rest with
        | nil => exact absurd hsplit ih
        | cons g gs => simp

theorem splitOnChar_of_not_mem (sep : Char) (cs : List Char)
    (h : sep ∉ cs) : splitOnChar sep cs = [cs] := by
  induction cs with
  | nil => rfl
  | cons c rest ih =>
      have hc : c ≠ sep := fun hcc => h (hcc ▸ List.mem_cons_self c rest)
      have hrest : sep ∉ rest := fun hm => h (List.mem_cons_of_mem c hm)
      simp [splitOnChar, hc, ih hrest]

theorem splitOnChar_length_of_mem (sep : Char) (cs : List Char)
    (h : sep ∈ cs) : 2 ≤ (splitOnChar sep cs).length := by
  induction cs with
  | nil => cases h
  | cons c rest ih =>
      by_cases hc : c = sep
      · have h1 : 1 ≤ (splitOnChar sep rest).length :=
          List.length_pos.mpr (splitOnChar_ne_nil sep rest)
        have hstep : splitOnChar sep (c :: rest) = [] :: splitOnChar sep rest := by
          simp [splitOnChar, hc]
        rw [hstep, List.length_cons]
        omega
      · have hm : sep ∈ rest := by
          cases List.mem_cons.mp h with
          | inl heq => exact absurd heq.symm hc
          | inr hm => exact hm
        have h2 := ih hm
        simp only [splitOnChar, hc, ite_false]
        cases hsplit : splitOnChar sep rest with
        | nil => exact absurd hsplit (splitOnChar_ne_nil sep rest)
        | cons g gs =>
            rw [hsplit] at h2
            simpa using h2

/-- Specification-level reading of the last-colon-segment rule: the
substring after the last colon, the whole string when no colon occurs. -/
def afterLastColon : List Char → List Char
  | [] => []
  | c :: rest =>
      if ':' ∈ rest then afterLastColon rest
      else if c = ':' then rest
      else c :: rest

theorem afterLastColon_of_not_mem (cs : List Char) (h : ':' ∉ cs) :
    afterLastColon cs = cs := by
  cases cs with
  | nil => rfl
  | cons c rest =>
      have hc : c ≠ ':' := fun hcc => h (hcc ▸ List.mem_cons_self c rest)
      have hrest : ':' ∉ rest := fun hm => h (List.mem_cons_of_mem c hm)
      simp [afterLastColon, hrest, hc]

theorem getLastD_splitOnChar (cs : List Char) :
    (splitOnChar ':' cs).getLastD [] = afterLastColon cs := by
  induction cs with
  | nil => rfl
  | cons c rest ih =>
      by_cases hc : c = ':'
      · subst hc
        have hstep : splitOnChar ':' (':' :: rest) = [] :: splitOnChar ':' rest := by
          simp [splitOnChar]
        by_cases hm : ':' ∈ rest
        · rw [hstep, List.getLastD_cons]
          rw [show (splitOnChar ':' rest).getLastD [] = afterLastColon rest from ih]
          simp [afterLastColon, hm]
        · rw [hstep, List.getLastD_cons]
          rw [splitOnChar_of_not_mem ':' rest hm]
          simp [afterLastColon, hm, List.getLastD]
      · by_cases hm : ':' ∈ rest
        · have h2 := splitOnChar_length_of_mem ':' rest hm
          cases hsplit : splitOnChar ':' rest with
          | nil => exact absurd hsplit (splitOnChar_ne_nil ':' rest)
          | cons g gs =>
              cases gs with
              | nil => rw [hsplit] at h2; simp at h2
              | cons g2 gs2 =>
                  rw [hsplit] at ih
                  simp only [splitOnChar, hc, ite_false, hsplit, List.getLastD_cons] at ih ⊢
                  rw [ih]
                  simp [afterLastColon, hm]
        · rw [show splitOnChar ':' (c :: rest) = [c :: rest] from
            splitOnChar_of_not_mem ':' (c :: rest) (by
              intro hmem
              cases List.mem_cons.mp hmem with
              | inl heq => exact hc heq.symm
              | inr hmm => exact hm hmm)]
          simp [afterLastColon, hm, hc, List.getLastD]

theorem stringMk_data (s : String) : String.mk s.data = s := by
  cases s
  rfl

/- ===================== Claim theorems ===================== -/

/-- C1: the claimed 5-attempt cap on automatic reconnection is false of
the code. Every scheduled reconnect re-invokes connect, and connect
calls disconnect, which resets the reconnect counter to 0; so in a run
in which every connection attempt fails (close code 1006), the counter
is 0 before every close event, and every close event, the 6th and every
later one included, schedules a further reconnect attempt, reported as
attempt 1 with delay 5000 ms. Reconnection is therefore attempted
without bound and the terminal counter-at-maximum branch is unreachable
on this path. A close with code 1000 never schedules a reconnect, as
the claim states. -/
theorem reconnect_retries_unbounded :
    (∀ n, (persistentFailure 1006 n).reconnectAttempts = 0) ∧
    (∀ n, (closeEvent (persistentFailure 1006 n) 1006).2 = some (5000, 1)) ∧
    (closeEvent (persistentFailure 1006 5) 1006).2 ≠ none ∧
    (∀ m, handleClose m 1000 = (m, none)) := by
  have hclose : ∀ m : WSManager, m.reconnectAttempts = 0 →
      closeEvent m 1006 = (⟨some ⟨wsCLOSED⟩, 1⟩, some (5000, 1)) := by
    intro m hm
    simp [closeEvent, handleClose, maxReconnectAttempts, reconnectDelay, hm]
  have hzero : ∀ n, (persistentFailure 1006 n).reconnectAttempts = 0 := by
    intro n
    induction n with
    | zero => rfl
    | succ n ih =>
        have hc := hclose (persistentFailure 1006 n) ih
        simp only [persistentFailure, hc]
        simp [reconnectTimeout, connectInvoke, disconnect, wsCLOSED]
  refine ⟨hzero, ?_, ?_, ?_⟩
  · intro n
    rw [hclose (persistentFailure 1006 n) (hzero n)]
  · rw [hclose (persistentFailure 1006 5) (hzero 5)]
    simp
  · intro m
    simp [handleClose]

/-- C4: send with no socket, or with a socket that is not in the OPEN
ready state, drops the message without transmitting (and, being total,
without throwing); with an open socket it transmits the serialized
message. -/
theorem send_only_when_open :
    (∀ m msg, m.websocket = none → send m msg = .dropped) ∧
    (∀ m ws msg, m.websocket = some ws → ws.readyState ≠ wsOPEN →
      send m msg = .dropped) ∧
    (∀ m ws msg, m.websocket = some ws → ws.readyState = wsOPEN →
      send m msg = .transmitted (jsonStringify msg)) := by
  refine ⟨?_, ?_, ?_⟩
  · intro m msg hm
    simp [send, hm]
  · intro m ws msg hm hr
    simp [send, hm, hr]
  · intro m ws msg hm hr
    simp [send, hm, hr]

/-- Witness for send: a manager with no socket drops, a manager with a
CLOSED socket drops, and a manager with an OPEN socket transmits the
serialized null message. -/
theorem send_only_when_open_witness :
    send ⟨none, 0⟩ .null = .dropped ∧
    send ⟨some ⟨wsCLOSED⟩, 0⟩ .null = .dropped ∧
    send ⟨some ⟨wsOPEN⟩, 0⟩ .null = .transmitted (jsonStringify .null) :=
  ⟨send_only_when_open.1 ⟨none, 0⟩ .null rfl,
   send_only_when_open.2.1 ⟨some ⟨wsCLOSED⟩, 0⟩ ⟨wsCLOSED⟩ .null rfl (by decide),
   send_only_when_open.2.2 ⟨some ⟨wsOPEN⟩, 0⟩ ⟨wsOPEN⟩ .null rfl rfl⟩

/-- C5: disconnect always leaves the manager with a null socket handle
and a zeroed reconnect counter, issues exactly one close(code, reason)
call when a socket was present, and is idempotent: a second disconnect
leaves the state produced by the first unchanged and issues no further
close call. -/
theorem disconnect_resets_and_idempotent :
    (∀ m c r, (disconnect m c r).1.websocket = none ∧
      (disconnect m c r).1.reconnectAttempts = 0) ∧
    (∀ m ws c r, m.websocket = some ws → (disconnect m c r).2 = [(c, r)]) ∧
    (∀ m c r c2 r2,
      disconnect (disconnect m c r).1 c2 r2 = ((disconnect m c r).1, [])) := by
  refine ⟨?_, ?_, ?_⟩
  · intro m c r
    cases hm : m.websocket with
    | none => simp [disconnect, hm]
    | some ws => simp [disconnect, hm]
  · intro m ws c r hm
    simp [disconnect, hm]
  · intro m c r c2 r2
    cases hm : m.websocket with
    | none => simp [disconnect, hm]
    | some ws => simp [disconnect, hm]

/-- Witness for disconnect: disconnecting a manager holding an open
socket mid-retry zeroes the state and closes the socket once, and a
second disconnect changes nothing and closes nothing. -/
theorem disconnect_resets_and_idempotent_witness :
    (disconnect ⟨some ⟨wsOPEN⟩, 3⟩ 1000 "Manual disconnect").1.websocket = none ∧
    (disconnect ⟨some ⟨wsOPEN⟩, 3⟩ 1000 "Manual disconnect").1.reconnectAttempts = 0 ∧
    (disconnect ⟨some ⟨wsOPEN⟩, 3⟩ 1000 "Manual disconnect").2 =
      [(1000, "Manual disconnect")] ∧
    disconnect (disconnect ⟨some ⟨wsOPEN⟩, 3⟩ 1000 "Manual disconnect").1 1000
        "Manual disconnect" =
      ((disconnect ⟨some ⟨wsOPEN⟩, 3⟩ 1000 "Manual disconnect").1, []) :=
  ⟨(disconnect_resets_and_idempotent.1 ⟨some ⟨wsOPEN⟩, 3⟩ 1000 "Manual disconnect").1,
   (disconnect_resets_and_idempotent.1 ⟨some ⟨wsOPEN⟩, 3⟩ 1000 "Manual disconnect").2,
   disconnect_resets_and_idempotent.2.1 ⟨some ⟨wsOPEN⟩, 3⟩ ⟨wsOPEN⟩ 1000
     "Manual disconnect" rfl,
   disconnect_resets_and_idempotent.2.2 ⟨some ⟨wsOPEN⟩, 3⟩ 1000 "Manual disconnect"
     1000 "Manual disconnect"⟩

/-- C6: apiRequest with a falsy secretKey cookie fails with AUTH_REQUIRED
and performs no network call, and a network response with HTTP status 401
fails with SESSION_EXPIRED. -/
theorem apiRequest_auth_and_session :
    (∀ key resp, jsFalsyStr key = true →
      apiRequest key resp = (false, .authRequired)) ∧
    (∀ key resp, jsFalsyStr key = false → resp.status = 401 →
      apiRequest key resp = (true, .sessionExpired)) := by
  constructor
  · intro key resp hk
    simp [apiRequest, hk]
  · intro key resp hk h401
    have hok : resp.ok = false := by
      simp [HttpResponse.ok, h401]
    simp [apiRequest, hk, hok, h401]

/-- Witness for apiRequest: a missing cookie yields AUTH_REQUIRED without
a network call, and a present key with a 401 response yields
SESSION_EXPIRED. -/
theorem apiRequest_auth_and_session_witness :
    apiRequest none ⟨200, some .null⟩ = (false, .authRequired) ∧
    apiRequest (some "k") ⟨401, none⟩ = (true, .sessionExpired) :=
  ⟨apiRequest_auth_and_session.1 none ⟨200, some .null⟩ rfl,
   apiRequest_auth_and_session.2 (some "k") ⟨401, none⟩ (by decide) rfl⟩

/-- C7: when the Permissions API reports camera permission denied, the
permission check returns false without ever invoking getUserMedia and
shows the denied error category, whose rendering is the Camera Access
Denied dialog with the request-permission (retry) button enabled. -/
theorem denied_permission_skips_getUserMedia (env : PermEnv)
    (hapi : env.permissionsApi = true)
    (hq : env.queryResult = some .denied) :
    checkAndRequestCameraPermission env = ⟨false, false, some "denied"⟩ ∧
    showCameraPermissionError "denied" = ("Camera Access Denied", true) := by
  constructor
  · simp [checkAndRequestCameraPermission, hapi, hq]
  · rfl

/-- Witness for the denied-permission path at a concrete environment in
which a getUserMedia probe would have succeeded, showing it is not
consulted. -/
theorem denied_permission_skips_getUserMedia_witness :
    checkAndRequestCameraPermission ⟨true, some .denied, none⟩ =
      ⟨false, false, some "denied"⟩ ∧
    showCameraPermissionError "denied" = ("Camera Access Denied", true) :=
  denied_permission_skips_getUserMedia ⟨true, some .denied, none⟩ rfl rfl

/-- C8: a sample step taken while the scanning flag is false or the
stream is gone draws nothing, decodes nothing, schedules nothing and
leaves the state unchanged; and stopScanning clears the scanning flag
and cancels any pending scheduled sample. -/
theorem no_sampling_while_stopped :
    (∀ s frame fid, s.isScanning = false ∨ s.cameraStream = none →
      scanForQRCode s frame fid = ⟨s, false, false, false, none⟩) ∧
    (∀ s, (stopScanning s).1.isScanning = false ∧
      (stopScanning s).1.animationFrame = none) ∧
    (∀ s fid, s.animationFrame = some fid → (stopScanning s).2 = true) := by
  refine ⟨?_, ?_, ?_⟩
  · intro s frame fid hs
    cases hs with
    | inl h => simp [scanForQRCode, h]
    | inr h => simp [scanForQRCode, h]
  · intro s
    cases ha : s.animationFrame with
    | none => simp [stopScanning, ha]
    | some fid => simp [stopScanning, ha]
  · intro s fid ha
    simp [stopScanning, ha]

/-- Witness for the scan-loop invariant: with the flag off (or stream
gone) a step does nothing, and stopScanning on a state with a pending
frame cancels it. -/
theorem no_sampling_while_stopped_witness :
    scanForQRCode ⟨false, some 1, some 7⟩ ⟨640, 480, some "x"⟩ 9 =
      ⟨⟨false, some 1, some 7⟩, false, false, false, none⟩ ∧
    scanForQRCode ⟨true, none, none⟩ ⟨640, 480, some "x"⟩ 9 =
      ⟨⟨true, none, none⟩, false, false, false, none⟩ ∧
    (stopScanning ⟨true, some 1, some 7⟩).1.isScanning = false ∧
    (stopScanning ⟨true, some 1, some 7⟩).1.animationFrame = none ∧
    (stopScanning ⟨true, some 1, some 7⟩).2 = true :=
  ⟨no_sampling_while_stopped.1 ⟨false, some 1, some 7⟩ ⟨640, 480, some "x"⟩ 9
     (Or.inl rfl),
   no_sampling_while_stopped.1 ⟨true, none, none⟩ ⟨640, 480, some "x"⟩ 9
     (Or.inr rfl),
   (no_sampling_while_stopped.2.1 ⟨true, some 1, some 7⟩).1,
   (no_sampling_while_stopped.2.1 ⟨true, some 1, some 7⟩).2,
   no_sampling_while_stopped.2.2 ⟨true, some 1, some 7⟩ 7 rfl⟩

/-- C9: dismissing the error dialog changes no scanner state immediately
and schedules the resume callback with a 500 ms delay; when the stream is
still active and scanning is not already running, that callback turns
the scanning flag back on. -/
theorem resume_after_error_dialog (s : ScanState)
    (hstream : s.cameraStream ≠ none) (hscan : s.isScanning = false) :
    (errorModalHiddenHandler s).1 = s ∧
    (errorModalHiddenHandler s).2 = 500 ∧
    (errorModalResumeCallback s).isScanning = true := by
  refine ⟨rfl, rfl, ?_⟩
  simp [errorModalResumeCallback, startScanning, hstream, hscan]

/-- Witness for the resume-after-dismissal behavior at a concrete state
with an active stream and scanning off. -/
theorem resume_after_error_dialog_witness :
    (errorModalHiddenHandler ⟨false, some 1, none⟩).1 = ⟨false, some 1, none⟩ ∧
    (errorModalHiddenHandler ⟨false, some 1, none⟩).2 = 500 ∧
    (errorModalResumeCallback ⟨false, some 1, none⟩).isScanning = true :=
  resume_after_error_dialog ⟨false, some 1, none⟩ (by simp) rfl

/-- C2 counterexample: the decoded payload 42 is valid JSON (the number
42), so the JSON branch of extractUserIdFromQR is taken, none of the
user_id, id, _id fields exists on a number, and the function returns
undefined rather than the string 42; the trimmed-raw-text fallback runs
only when JSON.parse throws, which it does not on this payload. -/
theorem extract_plain_number_counterexample :
    extractUserIdFromQR "42" = none ∧
    ¬ extractUserIdFromQR "42" = some (.str "42") := by
  have h : extractUserIdFromQR "42" = none := rfl
  refine ⟨h, ?_⟩
  rw [h]
  simp

/-- C2 amended: for every decoded QR payload, the extraction behaves in
exactly one of three ways. When JSON.parse succeeds with a value other
than the literal null, it returns the field chain parsed.user_id, else
parsed.id, else the field named _id (JavaScript logical-or of the three
accesses); on a non-object value such as the bare number 42 all three
accesses are undefined, so the payload 42 yields no identifier rather
than the string 42. When JSON.parse fails, the raw decoded text is
trimmed and returned. When the payload parses to the JSON literal null,
the property access on null throws a TypeError that the same catch
swallows, so the trimmed raw text is returned in that case too. In
particular the payload with a user_id field bound to the string 42
still resolves to 42. -/
theorem extract_user_id_amended :
    (∀ p v, jsonParse p = some v → v ≠ .null →
      extractUserIdFromQR p =
        jsOr (jsOr (getField v "user_id") (getField v "id")) (getField v "_id")) ∧
    (∀ p, jsonParse p = none → extractUserIdFromQR p = some (.str (jsTrim p))) ∧
    (∀ p, jsonParse p = some .null → extractUserIdFromQR p = some (.str (jsTrim p))) ∧
    extractUserIdFromQR "\x7b\"user_id\":\"42\"\x7d" = some (.str "42") ∧
    extractUserIdFromQR "42" = none ∧
    extractUserIdFromQR "null" = some (.str "null") := by
  refine ⟨?_, ?_, ?_, rfl, rfl, rfl⟩
  · intro p v hp hv
    cases v with
    | null => exact absurd rfl hv
    | bool b => simp [extractUserIdFromQR, hp]
    | num lexeme => simp [extractUserIdFromQR, hp]
    | str s => simp [extractUserIdFromQR, hp]
    | arr elems => simp [extractUserIdFromQR, hp]
    | obj fields => simp [extractUserIdFromQR, hp]
  · intro p hp
    simp [extractUserIdFromQR, hp]
  · intro p hp
    simp [extractUserIdFromQR, hp]

/-- Witness for the amended extraction at one concrete payload of each
of the three cases: the JSON number 42 goes through the field chain and
yields undefined, the non-JSON payload abc takes the parse-failure
branch, and the payload null parses yet returns its trimmed raw text. -/
theorem extract_user_id_amended_witness :
    extractUserIdFromQR "42" =
      jsOr (jsOr (getField (.num "42") "user_id") (getField (.num "42") "id"))
        (getField (.num "42") "_id") ∧
    extractUserIdFromQR "abc" = some (.str (jsTrim "abc")) ∧
    extractUserIdFromQR "null" = some (.str (jsTrim "null")) :=
  ⟨extract_user_id_amended.1 "42" (.num "42") rfl (fun h => JsValue.noConfusion h),
   extract_user_id_amended.2.1 "abc" rfl,
   extract_user_id_amended.2.2.1 "null" rfl⟩

/-- C3: for every non-empty identifier string, checkinUser issues a POST
to the check-in endpoint whose submitted user_id is the substring after
the last colon (afterLastColon), hence the whole string when it contains
no colon. -/
theorem checkin_submits_last_colon_segment (s : String) (h : s ≠ "") :
    checkinUser (some s) =
      .ok ⟨"/api/checkin/checkin", "POST", String.mk (afterLastColon s.data)⟩ ∧
    (':' ∉ s.data → checkinUser (some s) = .ok ⟨"/api/checkin/checkin", "POST", s⟩) := by
  have hfal : jsFalsyStr (some s) = false := by
    simp [jsFalsyStr, h]
  have hmain : checkinUser (some s) =
      .ok ⟨"/api/checkin/checkin", "POST", String.mk (afterLastColon s.data)⟩ := by
    have hlist : (splitOnChar ':' s.data).getLastD [] = afterLastColon s.data :=
      getLastD_splitOnChar s.data
    rw [List.getLastD_eq_getLast?] at hlist
    simp [checkinUser, hfal, hlist]
  refine ⟨hmain, ?_⟩
  intro hnc
  rw [hmain, afterLastColon_of_not_mem s.data hnc, stringMk_data]

/-- Witness for the last-colon-segment rule: badge:42 is submitted with
user_id 42, and the colon-free identifier 7 is submitted whole. -/
theorem checkin_submits_last_colon_segment_witness :
    checkinUser (some "badge:42") = .ok ⟨"/api/checkin/checkin", "POST", "42"⟩ ∧
    checkinUser (some "7") = .ok ⟨"/api/checkin/checkin", "POST", "7"⟩ := by
  constructor
  · have h := (checkin_submits_last_colon_segment "badge:42" (by decide)).1
    rw [show String.mk (afterLastColon "badge:42".data) = "42" from rfl] at h
    exact h
  · exact (checkin_submits_last_colon_segment "7" (by decide)).2 (by decide)

/-- C10: checkinUser rejects every falsy user id (null or undefined,
modelled as none, and the empty string) with INVALID_USER_ID before the
colon split and before any request is built, and a request is built only
for an identifier that is a non-empty string. -/
theorem checkin_rejects_falsy_user_id :
    (∀ u, jsFalsyStr u = true → checkinUser u = .error "INVALID_USER_ID") ∧
    (∀ u req, checkinUser u = .ok req → ∃ s, u = some s ∧ s ≠ "") := by
  constructor
  · intro u hu
    simp [checkinUser, hu]
  · intro u req hreq
    cases u with
    | none => simp [checkinUser, jsFalsyStr] at hreq
    | some s =>
        refine ⟨s, rfl, ?_⟩
        intro hs
        rw [hs] at hreq
        simp [checkinUser, jsFalsyStr] at hreq

/-- Witness for the falsy-id rejection: both null/undefined and the
empty string are rejected with INVALID_USER_ID. -/
theorem checkin_rejects_falsy_user_id_witness :
    checkinUser none = .error "INVALID_USER_ID" ∧
    checkinUser (some "") = .error "INVALID_USER_ID" :=
  ⟨checkin_rejects_falsy_user_id.1 none rfl,
   checkin_rejects_falsy_user_id.1 (some "") rfl⟩
